import Mathlib

/-!
Verification of the rqdb TypeScript client (rqlite driver) against its
natural-language specification.

The definitions below are shallow embeddings of the functions in
`src/RqliteNodeSelector.ts`, `src/createRandomPermutationFunction.ts`,
`src/getSqlCommand.ts`, `src/RqliteConnection.ts` and `src/RqliteCursor.ts`.
JavaScript arrays are modelled as `List`, out-of-range reads (which yield
`undefined` in JavaScript) as `Option` via `List.get?`/`getD` with a `none`
default, thrown exceptions as `Except`, and the cryptographic randomness
sources as explicit input streams.  `while (true)` loops are modelled with
explicit fuel; `none` on fuel exhaustion means the loop was still running.
-/

set_option maxRecDepth 4000

/-- Read-consistency levels: the strings 'none' | 'weak' | 'strong' of the
source; `levelNone` stands for the string 'none'. -/
inductive ReadConsistency where
  | levelNone
  | weak
  | strong
deriving DecidableEq, Repr

/-- The wire string for a consistency level (as interpolated into URLs). -/
def ReadConsistency.toWire : ReadConsistency → String
  | .levelNone => "none"
  | .weak => "weak"
  | .strong => "strong"

/-! ## Single-node selector (`RqliteSingleNodeSelector`, RqliteNodeSelector.ts lines 176-219)

Per-query state is the two mutable locals `passes` and `redirects` together
with the connection options read by the callbacks. -/

structure SingleSel where
  maxAttemptsPerHost : Nat
  maxRedirects : Nat
  passes : Nat
  redirects : Nat
deriving DecidableEq, Repr

/-- `createNodeSelectorForQuery` of the single-node selector: `passes = 0`,
`redirects = 0`. -/
def SingleSel.init (maxAttemptsPerHost maxRedirects : Nat) : SingleSel :=
  { maxAttemptsPerHost := maxAttemptsPerHost
    maxRedirects := maxRedirects
    passes := 0
    redirects := 0 }

/-- `selectNode` of the single-node selector (lines 191-199):
`if (passes >= args.maxAttemptsPerHost - 1) throw HostsExhausted(true);
redirects = 0; passes++; return hosts[0];`.
The thrown `RqliteHostsExhaustedError(true)` is `.error true` (the payload is
its `log` flag).  `hosts[0]` is supplied as `host`.  JavaScript evaluates
`maxAttemptsPerHost - 1` over signed numbers; for `maxAttemptsPerHost = 0`
the condition `passes >= -1` always holds, and so does the `Nat`-truncated
`passes >= 0`, so truncated subtraction agrees for every input. -/
def SingleSel.selectNode (host : String) (s : SingleSel) :
    Except Bool (String × SingleSel) :=
  if s.passes ≥ s.maxAttemptsPerHost - 1 then
    .error true
  else
    .ok (host, { s with redirects := 0, passes := s.passes + 1 })

/-- `onRedirect` of the single-node selector (lines 201-214).  Returns
`(follow, log)` and the updated state. -/
def SingleSel.onRedirect (s : SingleSel) : (Bool × Bool) × SingleSel :=
  if s.redirects ≥ s.maxRedirects then
    ((false, true), s)
  else
    ((true, true), { s with redirects := s.redirects + 1 })

/-- Drive the single-node selector: call `selectNode` repeatedly, collecting
the returned hosts, until it throws hosts-exhausted (`true` in the second
component) or the fuel runs out (`false`). -/
def SingleSel.runSelects (host : String) : Nat → SingleSel → List String × Bool
  | 0, _ => ([], false)
  | fuel + 1, s =>
    match s.selectNode host with
    | .error _ => ([], true)
    | .ok (h, s') =>
      let (rest, exhausted) := SingleSel.runSelects host fuel s'
      (h :: rest, exhausted)

/-! ## Random node selector (`_RqliteRandomNodeSelectorImpl`, RqliteNodeSelector.ts lines 387-531) -/

/-- The mutable fields of `_RqliteRandomNodeSelectorImpl` plus the
connection options and host list it reads.  `shuffledHosts` entries are
`Option String` because the implementation can store `this.hosts[permIndex]`
with `permIndex = hosts.length`, which is `undefined` in JavaScript. -/
structure RandomSel where
  hosts : List String
  maxAttemptsPerHost : Nat
  maxRedirects : Nat
  shuffledHosts : Option (List (Option String))
  nextIndexInShuffledHosts : Nat
  loopsThroughShuffledHosts : Nat
  redirects : Nat
  initialIndex : Nat
deriving DecidableEq, Repr

/-- Constructor state (lines 442-464): `initialIndex` is the value returned
by the precomputed `randomHostIndex()`, everything else starts empty. -/
def RandomSel.init (hosts : List String) (maxAttemptsPerHost maxRedirects
    initialIndex : Nat) : RandomSel :=
  { hosts := hosts
    maxAttemptsPerHost := maxAttemptsPerHost
    maxRedirects := maxRedirects
    shuffledHosts := none
    nextIndexInShuffledHosts := 0
    loopsThroughShuffledHosts := 0
    redirects := 0
    initialIndex := initialIndex }

/-- `let permIndex = permutation[i]; if (permIndex >= this.initialIndex) permIndex++;`
(lines 478-481 and 494-496). -/
def adjustPermIndex (initialIndex permIndex : Nat) : Nat :=
  if permIndex ≥ initialIndex then permIndex + 1 else permIndex

/-- First materialization of `shuffledHosts` (lines 474-483):
`shuffledHosts[0] = hosts[initialIndex]` and, for `i < hosts.length - 1`,
`shuffledHosts[i + 1] = hosts[adjust(permutation[i])]`.  `permutation` is a
result of `firstPassRandomShuffle()` and has length `hosts.length - 1`;
reads past its end (impossible for such results) default to `0`. -/
def firstPassShuffledHosts (hosts : List String) (initialIndex : Nat)
    (perm : List Nat) : List (Option String) :=
  hosts.get? initialIndex ::
    (List.range (hosts.length - 1)).map
      (fun i => hosts.get? (adjustPermIndex initialIndex (perm.getD i 0)))

/-- Re-materialization at a pass boundary (lines 492-499): for
`i < hosts.length`, `shuffledHosts[i] = hosts[adjust(permutation[i])]` where
`permutation` is a result of `repeatedPassRandomShuffle()` (length
`hosts.length`). -/
def repeatedPassShuffledHosts (hosts : List String) (initialIndex : Nat)
    (perm : List Nat) : List (Option String) :=
  (List.range hosts.length).map
    (fun i => hosts.get? (adjustPermIndex initialIndex (perm.getD i 0)))

/-- The randomness consumed by one query's selector: the (single) result of
`firstPassRandomShuffle()` and the successive results of
`repeatedPassRandomShuffle()`. -/
structure PermSource where
  firstPerm : List Nat
  repPerms : List (List Nat)
deriving Repr

/-- `selectNode` of `_RqliteRandomNodeSelectorImpl` (lines 466-506), with the
shuffle results drawn from `src`.  Control flow mirrors the source:
`redirects = 0` first; if `shuffledHosts` is unset and the cursor is `0`,
return `hosts[initialIndex]` eagerly; otherwise materialize `shuffledHosts`
if needed, handle the pass boundary (throwing `HostsExhaustedError(true)`,
i.e. `.error true`, once `loopsThroughShuffledHosts >= maxAttemptsPerHost - 1`),
and return `shuffledHosts[nextIndexInShuffledHosts]` (an `Option` since the
stored entry may be `undefined`).  As with the single-node selector, the
JavaScript `maxAttemptsPerHost - 1` agrees with truncated subtraction. -/
def RandomSel.selectNode (src : PermSource) (s : RandomSel) :
    Except Bool (Option String × RandomSel × PermSource) :=
  let s0 := { s with redirects := 0 }
  if s0.shuffledHosts = none ∧ s0.nextIndexInShuffledHosts = 0 then
    .ok (s0.hosts.get? s0.initialIndex,
         { s0 with nextIndexInShuffledHosts := 1 }, src)
  else
    let s1 : RandomSel :=
      if s0.shuffledHosts = none then
        let sh0 := firstPassShuffledHosts s0.hosts s0.initialIndex src.firstPerm
        { s0 with shuffledHosts := some sh0 }
      else s0
    let sh := s1.shuffledHosts.getD []
    if s1.nextIndexInShuffledHosts ≥ sh.length then
      if s1.loopsThroughShuffledHosts ≥ s1.maxAttemptsPerHost - 1 then
        .error true
      else
        let sh2 := repeatedPassShuffledHosts s1.hosts s1.initialIndex
          (src.repPerms.getD 0 [])
        .ok (sh2.getD 0 none,
             { s1 with shuffledHosts := some sh2,
                       loopsThroughShuffledHosts :=
                         s1.loopsThroughShuffledHosts + 1,
                       nextIndexInShuffledHosts := 1 },
             { src with repPerms := src.repPerms.drop 1 })
    else
      .ok (sh.getD s1.nextIndexInShuffledHosts none,
           { s1 with nextIndexInShuffledHosts :=
               s1.nextIndexInShuffledHosts + 1 }, src)

/-- `onRedirect` of `_RqliteRandomNodeSelectorImpl` (lines 510-523).
Returns `(follow, log)` and the updated state. -/
def RandomSel.onRedirect (s : RandomSel) : (Bool × Bool) × RandomSel :=
  if s.redirects ≥ s.maxRedirects then
    ((false, true), s)
  else
    ((true, true), { s with redirects := s.redirects + 1 })

/-- Drive the random selector: call `selectNode` repeatedly, collecting the
returned entries, until hosts-exhausted (`true`) or fuel out (`false`). -/
def RandomSel.runSelects (src : PermSource) :
    Nat → RandomSel → List (Option String) × Bool
  | 0, _ => ([], false)
  | fuel + 1, s =>
    match s.selectNode src with
    | .error _ => ([], true)
    | .ok (h, s', src') =>
      let (rest, exhausted) := RandomSel.runSelects src' fuel s'
      (h :: rest, exhausted)

/-- The number of `follow = true` decisions among `m` consecutive
`onRedirect` calls starting from state `s`. -/
def RandomSel.countFollows : Nat → RandomSel → Nat
  | 0, _ => 0
  | m + 1, s =>
    let ((follow, _), s') := s.onRedirect
    (if follow then 1 else 0) + RandomSel.countFollows m s'

/-- Helper for the single-host attempt count: from a state with `passes = p`
and any redirect count, a run with enough fuel returns the host exactly
`(maxAttemptsPerHost - 1) - p` more times and then reports hosts-exhausted. -/
theorem SingleSel.runSelects_eq (host : String) (k mr : Nat) :
    ∀ (fuel p r : Nat), k - 1 - p < fuel →
      SingleSel.runSelects host fuel ⟨k, mr, p, r⟩ =
        (List.replicate (k - 1 - p) host, true) := by
  intro fuel
  induction fuel with
  | zero => intro p r h; omega
  | succ f ih =>
    intro p r h
    rw [SingleSel.runSelects]
    unfold SingleSel.selectNode
    by_cases hp : p ≥ k - 1
    · simp only [hp, if_pos]
      have : k - 1 - p = 0 := by omega
      simp [this]
    · simp only [hp, if_neg, if_false]
      have h1 : k - 1 - (p + 1) < f := by omega
      rw [ih (p + 1) 0 h1]
      have h2 : k - 1 - p = (k - 1 - (p + 1)) + 1 := by omega
      simp [h2, List.replicate_succ]

/-- C1: refuted on the single-host specialization.  For every
`maxAttemptsPerHost = k >= 1`, a query against a one-host cluster in which
every attempt fails gets the host from `selectNode` exactly `k - 1` times
(not `k` times) before `selectNode` throws hosts-exhausted: the guard at
RqliteNodeSelector.ts line 192 is `passes >= maxAttemptsPerHost - 1`.  Since
`k >= 1`, `k - 1 ≠ k`, contradicting the claimed count. -/
theorem C1_singleHostSelectCount (host : String) (k mr fuel : Nat)
    (hk : 1 ≤ k) (hf : k ≤ fuel) :
    SingleSel.runSelects host fuel (SingleSel.init k mr) =
      (List.replicate (k - 1) host, true) ∧
    (List.replicate (k - 1) host).length ≠ k := by
  constructor
  · have := SingleSel.runSelects_eq host k mr fuel 0 0 (by omega)
    simpa [SingleSel.init] using this
  · simp only [List.length_replicate]
    omega

/-- Witness for `C1_singleHostSelectCount`: with the default
`maxAttemptsPerHost = 2` a single-host query is attempted once, not twice. -/
theorem C1_singleHostSelectCount_witness :
    SingleSel.runSelects "http://a" 10 (SingleSel.init 2 2) =
      (["http://a"], true) ∧
    (["http://a"] : List String).length ≠ 2 := by
  have h := C1_singleHostSelectCount "http://a" 2 2 10 (by decide) (by decide)
  simpa using h

/-- C2: refuted.  With hosts `[http://a, http://b]`, `initialIndex = 0`,
`maxAttemptsPerHost = 2`, first-pass permutation `[0]` and repeated-pass
permutation `[0, 1]`, the selections are
`a, b` (first pass) then `b, undefined` (second pass): the second pass
omits `hosts[0]` and contains the out-of-range entry `hosts[2] = undefined`,
because lines 493-498 apply the `initialIndex` skip-adjustment to a
permutation of the full range `0..hosts.length-1`. -/
theorem C2_secondPassNotAPermutation :
    RandomSel.runSelects ⟨[0], [[0, 1]]⟩ 10
        (RandomSel.init ["http://a", "http://b"] 2 2 0) =
      ([some "http://a", some "http://b", some "http://b", none], true) ∧
    ¬ List.Perm [some "http://b", (none : Option String)]
        [some "http://a", some "http://b"] := by
  refine ⟨rfl, ?_⟩
  intro h
  have := h.mem_iff (a := some "http://a")
  simp at this

/-- Any `m` consecutive `onRedirect` calls follow at most
`maxRedirects - redirects` redirects. -/
theorem RandomSel.countFollows_le : ∀ (m : Nat) (s : RandomSel),
    RandomSel.countFollows m s ≤ s.maxRedirects - s.redirects := by
  intro m
  induction m with
  | zero => intro s; simp [RandomSel.countFollows]
  | succ m ih =>
    intro s
    rw [RandomSel.countFollows]
    by_cases hr : s.redirects ≥ s.maxRedirects
    · simp [RandomSel.onRedirect, hr]
      have h1 := ih s
      omega
    · simp [RandomSel.onRedirect, hr]
      have h1 := ih { s with redirects := s.redirects + 1 }
      simp only at h1
      omega

/-- A successful `selectNode` leaves `redirects = 0` and does not change
`maxRedirects` (the method begins with `this.redirects = 0;` and no later
assignment touches either field). -/
theorem RandomSel.selectNode_resets_redirects (s : RandomSel)
    (src : PermSource) (out : Option String) (s' : RandomSel)
    (src' : PermSource) (h : s.selectNode src = .ok (out, s', src')) :
    s'.redirects = 0 ∧ s'.maxRedirects = s.maxRedirects := by
  obtain ⟨hosts, mah, mr, shuf, ni, loops, r, ii⟩ := s
  simp only [RandomSel.selectNode] at h
  split at h
  · simp only [Except.ok.injEq, Prod.mk.injEq] at h
    obtain ⟨-, h2, -⟩ := h
    subst h2
    exact ⟨rfl, rfl⟩
  · split at h
    · split at h
      · split at h
        · exact absurd h (by simp)
        · simp only [Except.ok.injEq, Prod.mk.injEq] at h
          obtain ⟨-, h2, -⟩ := h
          subst h2
          exact ⟨rfl, rfl⟩
      · simp only [Except.ok.injEq, Prod.mk.injEq] at h
        obtain ⟨-, h2, -⟩ := h
        subst h2
        exact ⟨rfl, rfl⟩
    · split at h
      · split at h
        · exact absurd h (by simp)
        · simp only [Except.ok.injEq, Prod.mk.injEq] at h
          obtain ⟨-, h2, -⟩ := h
          subst h2
          exact ⟨rfl, rfl⟩
      · simp only [Except.ok.injEq, Prod.mk.injEq] at h
        obtain ⟨-, h2, -⟩ := h
        subst h2
        exact ⟨rfl, rfl⟩

/-- C8: confirmed for `_RqliteRandomNodeSelectorImpl`.  `onRedirect` at a
redirect count at or above `maxRedirects` returns `(follow = false, log = true)`
and leaves the state unchanged; below the budget it increments the count and
returns `(follow = true, log = true)`; every successful `selectNode` resets
the redirect count to `0`; consequently, after any `selectNode`, at most
`maxRedirects` of the following `onRedirect` calls decide to follow. -/
theorem C8_redirectBudget (s : RandomSel) :
    (s.maxRedirects ≤ s.redirects → s.onRedirect = ((false, true), s)) ∧
    (s.redirects < s.maxRedirects →
      s.onRedirect = ((true, true), { s with redirects := s.redirects + 1 })) ∧
    (∀ src out s' src', s.selectNode src = .ok (out, s', src') →
      s'.redirects = 0) ∧
    (∀ src out s' src', s.selectNode src = .ok (out, s', src') →
      ∀ m, RandomSel.countFollows m s' ≤ s.maxRedirects) := by
  refine ⟨?_, ?_, ?_, ?_⟩
  · intro h
    unfold RandomSel.onRedirect
    simp only [ge_iff_le, h, if_pos, ite_true]
  · intro h
    unfold RandomSel.onRedirect
    have hn : ¬ (s.redirects ≥ s.maxRedirects) := by omega
    simp only [hn, if_false, ite_false]
  · intro src out s' src' h
    exact (RandomSel.selectNode_resets_redirects s src out s' src' h).1
  · intro src out s' src' h m
    obtain ⟨h0, hmax⟩ := RandomSel.selectNode_resets_redirects s src out s' src' h
    have := RandomSel.countFollows_le m s'
    omega

/-- Witness for `C8_redirectBudget`: at the budget (`redirects = maxRedirects = 2`)
the redirect is not followed; after a fresh selection at most 2 of the next 5
redirects are followed. -/
theorem C8_redirectBudget_witness :
    RandomSel.onRedirect
        { RandomSel.init ["http://a", "http://b"] 2 2 0 with redirects := 2 } =
      ((false, true),
        { RandomSel.init ["http://a", "http://b"] 2 2 0 with redirects := 2 }) ∧
    RandomSel.countFollows 5
        { RandomSel.init ["http://a", "http://b"] 2 2 0 with
            nextIndexInShuffledHosts := 1 } ≤ 2 := by
  constructor
  · exact (C8_redirectBudget _).1 (by decide)
  · exact (C8_redirectBudget
      (RandomSel.init ["http://a", "http://b"] 2 2 0)).2.2.2
      ⟨[0], [[0, 1]]⟩ (some "http://a") _ ⟨[0], [[0, 1]]⟩ rfl 5

/-! ## Leader-discovery node selector (`RqliteExplicitLeaderDiscoveryNodeSelector`, RqliteNodeSelector.ts lines 231-383) -/

/-- Outcome of one probe fetch (`fetch(nextNode + '/db/query?level=weak&redirect', ...)`):
a redirect status with its `Location` header (`none` when the header is
missing), an OK (2xx) response, another non-OK status, or a thrown fetch
error.  Cancellation is not modelled. -/
inductive ProbeOutcome where
  | redirectResp (location : Option String)
  | okResp
  | nonOKResp
  | fetchErr
deriving DecidableEq, Repr

/-- JavaScript `s.indexOf(c, start)`: the index of the first occurrence of
`c` at position `start` or later, `none` for `-1`. -/
def jsIndexOfFrom (s : String) (c : Char) (start : Nat) : Option Nat :=
  ((s.toList.drop start).findIdx? (fun d => d = c)).map (fun i => i + start)

/-- Whether the first list is a prefix of the second (kernel-computable). -/
def leadsWith : List Char → List Char → Bool
  | [], _ => true
  | _ :: _, [] => false
  | c :: cs, d :: ds => c == d && leadsWith cs ds

/-- JavaScript `s.startsWith(pre)`. -/
def strStartsWith (s pre : String) : Bool := leadsWith pre.toList s.toList

/-- The probe loop inside `selectNode` of the leader-discovery selector
(lines 265-344), before a leader has been chosen (`delegatingTo === null`).
One iteration: draw `nextNode` from the wrapped random selector (a thrown
hosts-exhausted ends the loop as `.error log`); probe it, with the `t`-th
probe's result given by `outcomes t`; then
- redirect without `Location`: `selector.onFailure(nonOKResponse)` (which
  never changes the random selector's state) and continue;
- redirect with `Location`: `selector.onRedirect` (which can bump the
  redirect count), then — since the random selector never sets
  `overrideFollowTarget` — if the location does not start with `http`,
  `onFailure` and continue, else strip everything from the first `/` at
  index ≥ `'https://'.length = 8` and return the bare URL;
- OK response: the source falls through the `if (!response.ok)` block with
  no `return`, so the loop simply continues with the next probe;
- non-OK or fetch error: `onFailure` and continue.
Returns the list of probed nodes together with the result; `none` when the
fuel runs out with the loop still running. -/
def ldProbeLoop (outcomes : Nat → ProbeOutcome) :
    Nat → Nat → RandomSel → PermSource → List (Option String) →
    Option (List (Option String) × Except Bool String)
  | 0, _, _, _, _ => none
  | fuel + 1, t, sel, src, trace =>
    match RandomSel.selectNode src sel with
    | .error log => some (trace, .error log)
    | .ok (nextNode, sel1, src1) =>
      let trace1 := trace ++ [nextNode]
      match outcomes t with
      | .redirectResp none =>
        ldProbeLoop outcomes fuel (t + 1) sel1 src1 trace1
      | .redirectResp (some location) =>
        let sel2 := (sel1.onRedirect).2
        if strStartsWith location "http" then
          let urlWithoutPath :=
            match jsIndexOfFrom location '/' 8 with
            | none => location
            | some i => String.mk (location.toList.take i)
          some (trace1, .ok urlWithoutPath)
        else
          ldProbeLoop outcomes fuel (t + 1) sel2 src1 trace1
      | .okResp =>
        ldProbeLoop outcomes fuel (t + 1) sel1 src1 trace1
      | .nonOKResp =>
        ldProbeLoop outcomes fuel (t + 1) sel1 src1 trace1
      | .fetchErr =>
        ldProbeLoop outcomes fuel (t + 1) sel1 src1 trace1

/-- C3: refuted.  Against hosts `[http://a, http://b]` with every probe
completing with an OK (2xx) response, the leader-discovery `selectNode` never
returns the probed node: the OK branch falls through without a `return`, so
the loop keeps probing (4 probes, the later ones against the degenerate
re-shuffled entries) and finally fails with hosts-exhausted instead of
returning `http://a`. -/
theorem C3_okProbeNotReturned :
    ldProbeLoop (fun _ => ProbeOutcome.okResp) 10 0
        (RandomSel.init ["http://a", "http://b"] 2 2 0) ⟨[0], [[0, 1]]⟩ [] =
      some ([some "http://a", some "http://b", some "http://b", none],
            .error true) ∧
    (Except.error true : Except Bool String) ≠ .ok "http://a" := by
  exact ⟨rfl, by simp⟩

/-! ## SQL command classification (`getSqlCommand.ts`)

`getSqlCommand` extracts the first non-whitespace word with
`/^\s*(\S+)/`, uppercases it, and — when that word is `WITH` — runs the
unanchored, case-insensitive, dot-all regex

`WITH( RECURSIVE)?\s+(,?\s*\S+(\s?\([^)]+\))?\s+AS\s+((NOT\s+)?MATERIALIZED\s+)?\(.+?\))+\s+(?<cmd>INSERT|UPDATE|DELETE|SELECT)`

over the whole string and returns the uppercased `cmd` group.
The regex is embedded as an AST (`Re`) evaluated by a backtracking matcher
(`mrun`) with JavaScript priority order: alternatives left-first, greedy
quantifiers longest-first, lazy quantifiers shortest-first, leftmost match
wins.  `mrun`'s fuel bounds only the nesting depth of the search, and the
call sites pass far more than these inputs can use. -/

/-- JavaScript `\s` restricted to the character ranges these SQL strings can
contain: ASCII whitespace and NBSP.  (JavaScript `\s` also covers the other
Unicode space code points, which never occur in the inputs considered
here.) -/
def jsIsSpace (c : Char) : Bool :=
  c = ' ' || c = '\t' || c = '\n' || c = '\r' || c = '\x0b' || c = '\x0c' ||
    c = ' '

/-- JavaScript `toUpperCase` on the ASCII range (all inputs considered here
are ASCII). -/
def jsToUpperList (l : List Char) : List Char := l.map Char.toUpper

/-- Regular-expression fragments sufficient for `WITH_MATCHER`: literals and
single characters (both case-insensitive), character classes with the
greedy `?`/`*`/`+` and lazy `+?` quantifiers, sequencing, alternation,
greedy group quantifiers, and a capturing group. -/
inductive Re where
  | eps
  | lit (s : String)
  | chr (c : Char)
  | optCls (p : Char → Bool)
  | starCls (p : Char → Bool)
  | plusCls (p : Char → Bool)
  | plusLazy (p : Char → Bool)
  | seq (a b : Re)
  | alt (a b : Re)
  | opt (a : Re)
  | starGreedy (a : Re)
  | plusGreedy (a : Re)
  | cap (a : Re)

/-- Case-insensitive literal prefix strip. -/
def stripCI : List Char → List Char → Option (List Char)
  | [], l => some l
  | _ :: _, [] => none
  | c :: cs, d :: ds => if d.toLower = c.toLower then stripCI cs ds else none

/-- Backtracking matcher in continuation-passing style.  `cap` carries the
text most recently captured by a `Re.cap` group along the current path, `k`
is the continuation receiving the remaining input and the capture; `none`
signals failure (forcing backtracking at the nearest choice point), and a
successful overall match produces `some` of the capture.  Choice points
follow JavaScript semantics: `alt` prefers the left alternative, greedy
quantifiers prefer longer matches, lazy ones shorter, and a repetition stops
if an iteration makes no progress. -/
def mrun : Nat → Re → List Char → Option (List Char) →
    (List Char → Option (List Char) → Option (Option (List Char))) →
    Option (Option (List Char))
  | 0, _, _, _, _ => none
  | fuel + 1, re, l, cap, k =>
    match re with
    | .eps => k l cap
    | .lit s =>
      match stripCI s.toList l with
      | none => none
      | some rem => k rem cap
    | .chr c =>
      match l with
      | [] => none
      | d :: rem => if d.toLower = c.toLower then k rem cap else none
    | .optCls p =>
      let m := min (l.takeWhile p).length 1
      ((List.range (m + 1)).reverse).findSome? (fun i => k (l.drop i) cap)
    | .starCls p =>
      let m := (l.takeWhile p).length
      ((List.range (m + 1)).reverse).findSome? (fun i => k (l.drop i) cap)
    | .plusCls p =>
      let m := (l.takeWhile p).length
      ((List.range m).reverse.map (fun i => i + 1)).findSome?
        (fun i => k (l.drop i) cap)
    | .plusLazy p =>
      let m := (l.takeWhile p).length
      ((List.range m).map (fun i => i + 1)).findSome?
        (fun i => k (l.drop i) cap)
    | .seq a b => mrun fuel a l cap (fun rem cap' => mrun fuel b rem cap' k)
    | .alt a b => (mrun fuel a l cap k).orElse (fun _ => mrun fuel b l cap k)
    | .opt a => (mrun fuel a l cap k).orElse (fun _ => k l cap)
    | .starGreedy a =>
      (mrun fuel a l cap (fun rem cap' =>
        if rem.length < l.length then mrun fuel (.starGreedy a) rem cap' k
        else k rem cap')).orElse (fun _ => k l cap)
    | .plusGreedy a =>
      mrun fuel a l cap (fun rem cap' => mrun fuel (.starGreedy a) rem cap' k)
    | .cap a =>
      mrun fuel a l cap (fun rem _ =>
        k rem (some (l.take (l.length - rem.length))))

/-- Unanchored search (JavaScript `String.match` with a non-global regex):
try a match at each start position, leftmost first; produce the capture of
the first match. -/
def searchRe (fuel : Nat) (re : Re) : List Char → Option (Option (List Char))
  | [] => mrun fuel re [] none (fun _ cap => some cap)
  | c :: rest =>
    match mrun fuel re (c :: rest) none (fun _ cap => some cap) with
    | some res => some res
    | none => searchRe fuel re rest

/-- Sequence a list of fragments. -/
def seqList (rs : List Re) : Re := rs.foldr Re.seq Re.eps

/-- The `WITH_MATCHER` regex of getSqlCommand.ts lines 1-2, fragment by
fragment. -/
def reWithMatcher : Re :=
  seqList [
    .lit "WITH",
    .opt (.lit " RECURSIVE"),
    .plusCls jsIsSpace,
    .plusGreedy (seqList [
      .opt (.chr ','),
      .starCls jsIsSpace,
      .plusCls (fun c => !(jsIsSpace c)),
      .opt (seqList [.optCls jsIsSpace, .chr '(',
                     .plusCls (fun c => !(c = ')')), .chr ')']),
      .plusCls jsIsSpace,
      .lit "AS",
      .plusCls jsIsSpace,
      .opt (seqList [.opt (seqList [.lit "NOT", .plusCls jsIsSpace]),
                     .lit "MATERIALIZED", .plusCls jsIsSpace]),
      .chr '(',
      .plusLazy (fun _ => true),
      .chr ')']),
    .plusCls jsIsSpace,
    .cap (.alt (.lit "INSERT")
          (.alt (.lit "UPDATE") (.alt (.lit "DELETE") (.lit "SELECT"))))]

/-- `getSqlCommand` (getSqlCommand.ts lines 11-39): take the first
non-whitespace word (`/^\s*(\S+)/`; an all-whitespace string throws);
uppercase it; if it is not `WITH`, return it; otherwise search the string
with `WITH_MATCHER` (a failed match or an unset `cmd` group throws) and
return the uppercased `cmd` capture. -/
def getSqlCommandModel (sqlStr : String) : Except String String :=
  let cs := sqlStr.toList
  let afterWs := cs.dropWhile jsIsSpace
  if afterWs.isEmpty then
    .error "unable to determine SQL command: empty"
  else
    let firstWord := afterWs.takeWhile (fun c => !(jsIsSpace c))
    let upper := String.mk (jsToUpperList firstWord)
    if upper = "WITH" then
      match searchRe 1000 reWithMatcher cs with
      | none => .error "unable to determine SQL command using CTEs: no match"
      | some none => .error "unable to determine SQL command using CTEs: bad regex"
      | some (some cmd) => .ok (String.mk (jsToUpperList cmd))
    else
      .ok upper

/-- The five commands of the specification's classification sentence. -/
def specCmdSet : List String :=
  ["SELECT", "INSERT", "UPDATE", "DELETE", "EXPLAIN"]

/-- Word characters for tokenizing SQL text. -/
def isWordChar (c : Char) : Bool := c.isAlphanum || c = '_'

/-- A finished token is the answer when it started at parenthesis depth 0
and its uppercase form is one of the five commands. -/
def specFinishWord (wordDepth : Nat) (acc : List Char) : Option String :=
  if acc ≠ [] ∧ wordDepth = 0 ∧ String.mk (jsToUpperList acc) ∈ specCmdSet then
    some (String.mk (jsToUpperList acc))
  else none

/-- Scanner for `specFirstTopLevelCommand`: walk the characters tracking the
parenthesis depth, accumulate maximal word-character runs, and return the
first completed token that qualifies (`wordDepth` is the depth at the start
of the current token). -/
def specScan : List Char → Nat → Nat → List Char → Option String
  | [], _, wordDepth, acc => specFinishWord wordDepth acc
  | c :: rest, depth, wordDepth, acc =>
    if isWordChar c then
      specScan rest depth (if acc.isEmpty then depth else wordDepth)
        (acc ++ [c])
    else
      match specFinishWord wordDepth acc with
      | some w => some w
      | none =>
        let depth' :=
          if c = '(' then depth + 1
          else if c = ')' then depth - 1 else depth
        specScan rest depth' depth' []

/-- Modelled from the spec, for refinement comparison only (the code's
authority is `getSqlCommandModel`): "the first of
SELECT, INSERT, UPDATE, DELETE, EXPLAIN appearing outside the top-level CTE
list".  CTE bodies and column lists sit inside parentheses, so this is the
first whole token at parenthesis depth 0 whose uppercase form is one of the
five commands. -/
def specFirstTopLevelCommand (l : List Char) : Option String :=
  specScan l 0 0 []

/-- C7 counterexample: on
`WITH a AS (SELECT x FROM (SELECT y) UPDATE_LOG) SELECT * FROM a`
(a CTE whose body gives the inner subquery the alias `UPDATE_LOG`),
`getSqlCommand` returns `UPDATE` — the regex's lazy `.+?` stops at the
first `)`, and the keyword alternation has no word boundary, so it matches
the prefix of `UPDATE_LOG` — while the first command keyword outside the
top-level CTE list is `SELECT`. -/
theorem C7_counterexample :
    getSqlCommandModel
        "WITH a AS (SELECT x FROM (SELECT y) UPDATE_LOG) SELECT * FROM a" =
      .ok "UPDATE" ∧
    specFirstTopLevelCommand
        ("WITH a AS (SELECT x FROM (SELECT y) UPDATE_LOG) SELECT * FROM a").toList =
      some "SELECT" ∧
    Except.ok "UPDATE" ≠ (Except.ok "SELECT" : Except String String) := by
  refine ⟨rfl, rfl, by simp⟩

/-- Dropping while a predicate holds skips a block on which it always
holds. -/
theorem dropWhile_append_of_forall (p : Char → Bool) :
    ∀ (l1 l2 : List Char), (∀ c ∈ l1, p c = true) →
      (l1 ++ l2).dropWhile p = l2.dropWhile p := by
  intro l1
  induction l1 with
  | nil => intro l2 _; rfl
  | cons c cs ih =>
    intro l2 h
    simp only [List.cons_append, List.dropWhile_cons, h c (by simp)]
    exact ih l2 (fun d hd => h d (by simp [hd]))

/-- Taking while a predicate holds passes through a block on which it always
holds. -/
theorem takeWhile_append_of_forall (p : Char → Bool) :
    ∀ (l1 l2 : List Char), (∀ c ∈ l1, p c = true) →
      (l1 ++ l2).takeWhile p = l1 ++ l2.takeWhile p := by
  intro l1
  induction l1 with
  | nil => intro l2 _; rfl
  | cons c cs ih =>
    intro l2 h
    simp only [List.cons_append, List.takeWhile_cons, h c (by simp)]
    rw [ih l2 (fun d hd => h d (by simp [hd]))]
    simp

/-- Unfolding `String.mk`. -/
theorem toList_mk (l : List Char) : (String.mk l).toList = l := rfl

/-- C7 amended: for every SQL string that does not start (after optional
leading whitespace) with the word `WITH`, `getSqlCommand` returns the
uppercased first whitespace-delimited word.  (For `WITH`-prefixed strings
the result is whatever the heuristic `WITH_MATCHER` finds, which
`C7_counterexample` shows can differ from the first command keyword outside
the top-level CTE list.)  The string is presented as leading whitespace
`ws`, a non-empty whitespace-free word `w`, and a remainder `rest` that is
empty or starts with whitespace. -/
theorem C7_firstWordCommand (ws w rest : List Char)
    (hws : ∀ c ∈ ws, jsIsSpace c = true)
    (hw : w ≠ [])
    (hwc : ∀ c ∈ w, jsIsSpace c = false)
    (hrest : rest = [] ∨ ∃ c rest2, rest = c :: rest2 ∧ jsIsSpace c = true)
    (hnw : String.mk (jsToUpperList w) ≠ "WITH") :
    getSqlCommandModel (String.mk (ws ++ w ++ rest)) =
      .ok (String.mk (jsToUpperList w)) := by
  obtain ⟨c0, w', rfl⟩ : ∃ c0 w', w = c0 :: w' := by
    cases w with
    | nil => exact absurd rfl hw
    | cons a b => exact ⟨a, b, rfl⟩
  have hc0 : jsIsSpace c0 = false := hwc c0 (by simp)
  have hdrop : (ws ++ (c0 :: w') ++ rest).dropWhile jsIsSpace =
      c0 :: (w' ++ rest) := by
    rw [List.append_assoc, dropWhile_append_of_forall jsIsSpace ws _ hws]
    simp [List.dropWhile_cons, hc0]
  have htake : (c0 :: (w' ++ rest)).takeWhile (fun c => !(jsIsSpace c)) =
      c0 :: w' := by
    simp only [List.takeWhile_cons, hc0, Bool.not_false, if_true, ite_true]
    rw [takeWhile_append_of_forall _ w' rest
      (fun d hd => by simp [hwc d (by simp [hd])])]
    rcases hrest with rfl | ⟨d, rest2, rfl, hd⟩
    · simp
    · simp [List.takeWhile_cons, hd]
  simp only [getSqlCommandModel, toList_mk, hdrop, htake, List.isEmpty_cons,
    Bool.false_eq_true, if_false, ite_false, hnw]

/-- Witness for `C7_firstWordCommand` at `SELECT 1`. -/
theorem C7_firstWordCommand_witness :
    getSqlCommandModel "SELECT 1" = .ok "SELECT" := by
  have h := C7_firstWordCommand [] "SELECT".toList " 1".toList
    (by simp) (by decide) (by decide)
    (Or.inr ⟨' ', "1".toList, rfl, by decide⟩) (by decide)
  simpa using h

/-! ## Random shuffle (`createRandomShuffleFunction`, createRandomPermutationFunction.ts lines 627-683)

Randomness is an input: `ranges n t` stands for the `t`-th value produced by
the generator built with `createRandomRangeFunction(n)` (an integer in
`[0, n)`), and `draws t` for `Math.floor(getRandom53BitFloat() * (i + 1))`
in the `t`-th iteration of the generic path's inner `while (true)` loop
(since `getRandom53BitFloat` can return exactly `1`, that value can be
`i + 1`, which the loop rejects). -/

/-- The generic path's inner `while (true)` loop (lines 672-679) at outer
index `i`: draw `j`; `if (j === i + 1) continue;` else
`result[i] = result[j]; result[j] = i;` — and, the body containing no
`break` or `return`, continue again.  `List.set` models the in-range
assignments (for the values the source can produce, `j ≤ i <` the array
length); the divergence result below holds for arbitrary `j` anyway.
Produces the final array and next draw counter on exit — but the loop has
no exit, so only `none` (fuel exhausted, still looping) is ever reached. -/
def genericShuffleLoop (i : Nat) (draws : Nat → Nat) :
    Nat → List (Option Nat) → Nat → Option (List (Option Nat) × Nat)
  | _, _, 0 => none
  | t, result, fuel + 1 =>
    let j := draws t
    if j = i + 1 then
      genericShuffleLoop i draws (t + 1) result fuel
    else
      let r1 := result.set i (result.getD j none)
      let r2 := r1.set j (some i)
      genericShuffleLoop i draws (t + 1) r2 fuel

/-- The generic path's outer `for (let i = 0; i < length; i++)` loop
(lines 670-680); `remaining = length - i`. -/
def genericOuter (draws : Nat → Nat) (fuel : Nat) :
    Nat → Nat → Nat → List (Option Nat) → Option (List (Option Nat))
  | 0, _, _, result => some result
  | remaining + 1, i, t, result =>
    match genericShuffleLoop i draws t result fuel with
    | none => none
    | some (r', t') => genericOuter draws fuel remaining (i + 1) t' r'

/-- The `length < 16` inside-out Fisher-Yates path (lines 650-666):
`result = new Array(length)` (all holes), then for each `i`,
`j = generators[i]()` and `result[i] = result[j]; result[j] = i;`.
`gen i` is the value drawn from `generators[i]`. -/
def smallShuffle (length : Nat) (gen : Nat → Nat) : List (Option Nat) :=
  (List.range length).foldl
    (fun result i =>
      let j := gen i
      (result.set i (result.getD j none)).set j (some i))
    (List.replicate length none)

/-- One invocation of the function returned by
`createRandomShuffleFunction(length)` (lines 627-683): specialized results
for `length ∈ 0, 1, 2`; inside-out Fisher-Yates with the precomputed
range generators for `length < 16`; otherwise the generic path.  Negative
lengths throw at creation time and are not representable here.  Entries are
`Option Nat` since JavaScript arrays can retain holes; `none` as the overall
result means the call was still running when the fuel ran out. -/
def randomShuffleRun (length : Nat) (ranges : Nat → Nat → Nat)
    (draws : Nat → Nat) (fuel : Nat) : Option (List (Option Nat)) :=
  if length = 0 then some []
  else if length = 1 then some [some 0]
  else if length = 2 then
    let first := ranges 2 0
    some [some first, some (1 - first)]
  else if length < 16 then
    some (smallShuffle length (fun i => ranges (i + 1) i))
  else
    genericOuter draws fuel length 0 0 (List.replicate length none)

/-- The inner loop of the generic path never terminates: both branches of
its body continue the loop. -/
theorem genericShuffleLoop_none (i : Nat) (draws : Nat → Nat) :
    ∀ (fuel t : Nat) (result : List (Option Nat)),
      genericShuffleLoop i draws t result fuel = none := by
  intro fuel
  induction fuel with
  | zero => intro t result; rfl
  | succ f ih =>
    intro t result
    rw [genericShuffleLoop]
    by_cases hj : draws t = i + 1
    · simp only [hj, if_pos, ite_true]
      exact ih (t + 1) result
    · simp only [hj, if_neg, ite_false]
      exact ih (t + 1) _

/-- C5: refuted for every `n ≥ 16` — the claim's generic Fisher-Yates path.
For every length `16 + m`, every stream of random values, and every fuel
bound, the call is still inside the first `while (true)` iteration group
when the fuel runs out: the loop body (lines 672-679) has no `break`, so
`createRandomShuffleFunction(n)()` never returns at all, let alone a
permutation of `[0, n)`. -/
theorem C5_genericShuffleDiverges (m : Nat) (ranges : Nat → Nat → Nat)
    (draws : Nat → Nat) (fuel : Nat) :
    randomShuffleRun (16 + m) ranges draws fuel = none := by
  have h0 : ¬(16 + m = 0) := by omega
  have h1 : ¬(16 + m = 1) := by omega
  have h2 : ¬(16 + m = 2) := by omega
  have h3 : ¬(16 + m < 16) := by omega
  unfold randomShuffleRun
  simp only [h0, h1, h2, h3, if_false, ite_false]
  have hs : 16 + m = (15 + m) + 1 := by omega
  rw [hs, genericOuter, genericShuffleLoop_none]

/-! ## Query layer (`RqliteCursor`, RqliteCursor.ts) -/

/-- `RqliteParameter`: string | number | boolean | null (numbers restricted
to the integers used by these claims). -/
inductive Param where
  | str (s : String)
  | num (n : Int)
  | boolean (b : Bool)
  | null
deriving DecidableEq, Repr

/-- The `a ?? b ?? c` chain of RqliteCursor.ts lines 229-232 resp. 233-236:
per-call option, else per-cursor option, else the connection value. -/
def resolveReadConsistency (call cursor : Option ReadConsistency)
    (conn : ReadConsistency) : ReadConsistency :=
  call.getD (cursor.getD conn)

/-- Freshness resolution, same `??` chain. -/
def resolveFreshness (call cursor : Option String) (conn : String) : String :=
  call.getD (cursor.getD conn)

/-- One call to `connection.fetchResponse`, as observable from the cursor:
HTTP method, path, the strength and freshness hints handed to the node
selector, and the JSON body `[[op, ...params], ...]` (kept structured). -/
structure ExecRequest where
  method : String
  path : String
  strength : ReadConsistency
  freshness : String
  body : List (String × List Param)
deriving DecidableEq, Repr

/-- `RawRqliteResultItem` (wire shape). -/
structure RawResultItem where
  values : Option (List (List Param))
  lastInsertId : Option Int
  rowsAffected : Option Int
  error : Option String
deriving DecidableEq, Repr, Inhabited

/-- The parsed JSON body of a `/db/query` / `/db/execute` response. -/
structure RawResponse where
  error : Option String
  results : Option (List RawResultItem)
deriving DecidableEq, Repr, Inhabited

/-- The failures `execute`/`executeMany2` can raise. -/
inductive ExecErr where
  | classifyErr (msg : String)
  | serverErr (msg : String)
  | protocolNoResults
  | protocolWrongCount
  | sqlErr (msg : String) (index : Nat)
  | lengthMismatch
  | noResponse
deriving DecidableEq, Repr

/-- The `fetchResponse` arguments `execute` computes (RqliteCursor.ts lines
284-296 for reads, 331-340 for writes): reads go to
`POST /db/query?level=<lvl>` with `&freshness=<f>` appended exactly when the
level is `none` and `&redirect` appended otherwise, using the resolved read
consistency as the selector strength hint; everything else goes to
`POST /db/execute?redirect` with strength forced to `strong`. -/
def buildExecuteRequest (operation : String) (params : List Param)
    (isRead : Bool) (readConsistency : ReadConsistency)
    (freshness : String) : ExecRequest :=
  if isRead then
    { method := "POST"
      path := "/db/query?level=" ++ readConsistency.toWire ++
        (if readConsistency = .levelNone then "&freshness=" ++ freshness
         else "") ++
        (if readConsistency ≠ .levelNone then "&redirect" else "")
      strength := readConsistency
      freshness := freshness
      body := [(operation, params)] }
  else
    { method := "POST"
      path := "/db/execute?redirect"
      strength := .strong
      freshness := freshness
      body := [(operation, params)] }

/-- `cursor.execute` (RqliteCursor.ts lines 223-417), with network effects
made explicit: the `t`-th element of `responses` is the parsed body returned
by the `t`-th `fetchResponse` call, and the returned list is the trace of
`fetchResponse` calls made (logging is omitted; it computes no state).
Faithful steps: resolve `raiseOnError`/consistency/freshness; classify via
`getSqlCommand` (a thrown classification error propagates); build the read
request `POST /db/query?level=<lvl>[&freshness=<f>][&redirect]` (freshness
iff level `none`, redirect otherwise) with the read consistency as the
selector strength hint, or the write request `POST /db/execute?redirect`
with strength `strong`; await the body; on a top-level `error`: if this was
a read at level `none` and the error is exactly `stale read`, re-enter
`execute` with the per-call consistency replaced by `weak` (lines 395-398),
else throw the server error; on missing `results` or `results.length !== 1`
throw a protocol error; on `raiseOnError` and an item-level SQL error throw
it with query index 0; else return the item.  `.error .noResponse` stands
for a run needing more responses than provided (no counterpart in the
source, whose driver always yields a body or throws). -/
def executeModel (operation : String) (params : List Param)
    (raiseOnError : Bool) (callRC cursorRC : Option ReadConsistency)
    (connRC : ReadConsistency) (callF cursorF : Option String)
    (connF : String) :
    List RawResponse → List ExecRequest × Except ExecErr RawResultItem
  | responses =>
    match getSqlCommandModel operation with
    | .error e => ([], .error (.classifyErr e))
    | .ok command =>
      let readConsistency := resolveReadConsistency callRC cursorRC connRC
      let freshness := resolveFreshness callF cursorF connF
      let isRead := command == "SELECT" || command == "EXPLAIN"
      let req := buildExecuteRequest operation params isRead readConsistency
        freshness
      match _hr : responses with
      | [] => ([req], .error .noResponse)
      | resp :: rest =>
        match resp.error with
        | some e =>
          if isRead && e == "stale read" &&
              readConsistency == ReadConsistency.levelNone then
            let (tr, res) := executeModel operation params raiseOnError
              (some .weak) cursorRC connRC callF cursorF connF rest
            (req :: tr, res)
          else
            ([req], .error (.serverErr e))
        | none =>
          match resp.results with
          | none => ([req], .error .protocolNoResults)
          | some items =>
            if items.length ≠ 1 then ([req], .error .protocolWrongCount)
            else
              let item := items.getD 0 default
              if raiseOnError ∧ item.error ≠ none then
                ([req], .error (.sqlErr (item.error.getD "") 0))
              else
                ([req], .ok item)
termination_by responses => responses.length
decreasing_by subst _hr; simp

/-- Index and message of the first item carrying a SQL error.
Modelled from the spec: `raiseIfAnySQLError` (whose implementation is not
under src/, only its declaration): "fail on the first item that has a
non-empty `error`, reporting the 0-based index of that item". -/
def firstSqlError : List RawResultItem → Nat → Option (Nat × String)
  | [], _ => none
  | item :: rest, idx =>
    match item.error with
    | some e => some (idx, e)
    | none => firstSqlError rest (idx + 1)

/-- `cursor.executeMany2` (RqliteCursor.ts lines 470-571), effects explicit
as in `executeModel`.  Faithful steps: resolve `raiseOnError`,
`params = parameters ?? operations.map(() => [])` and `transaction`; throw
if `operations.length !== params.length` — this check precedes the
`fetchResponse` call (line 512), inside which the per-query node selector is
created, so a mismatch produces an empty request trace; otherwise `POST`
`/db/execute?redirect[&transaction]` with strength `strong` and the
connection's freshness, then unwrap the response as in `execute` but over
the whole item list. -/
def executeMany2Model (operations : List String)
    (parameters : Option (List (List Param)))
    (raiseOnErrorOpt transactionOpt : Option Bool) (connF : String)
    (responses : List RawResponse) :
    List ExecRequest × Except ExecErr (List RawResultItem) :=
  let raiseOnError := raiseOnErrorOpt.getD true
  let params := parameters.getD (operations.map (fun _ => []))
  let transaction := transactionOpt.getD true
  if operations.length ≠ params.length then
    ([], .error .lengthMismatch)
  else
    let path := "/db/execute?redirect" ++
      (if transaction then "&transaction" else "")
    let req : ExecRequest :=
      { method := "POST"
        path := path
        strength := .strong
        freshness := connF
        body := operations.zipWith (fun op ps => (op, ps)) params }
    match responses with
    | [] => ([req], .error .noResponse)
    | resp :: _ =>
      match resp.error with
      | some e => ([req], .error (.serverErr e))
      | none =>
        match resp.results with
        | none => ([req], .error .protocolNoResults)
        | some items =>
          if raiseOnError then
            match firstSqlError items 0 with
            | some (idx, e) => ([req], .error (.sqlErr e idx))
            | none => ([req], .ok items)
          else ([req], .ok items)

/-! ## Default-selector routing and backups (`RqliteNodeSelector.ts` lines 231-257 and 592-616, `RqliteConnection.ts` lines 478-614) -/

/-- Which per-query selector a `createNodeSelectorForQuery` call ends up
constructing: the single-node selector, the plain random selector (no
probing), or the leader-discovery probing wrapper. -/
inductive SelectorKind where
  | singleNode
  | randomNoProbe
  | leaderProbing
deriving DecidableEq, Repr

/-- `RqliteRandomNodeSelector` (lines 546-580): one host → the single-node
selector, otherwise `_RqliteRandomNodeSelectorImpl`.  (An empty host list
throws at construction and is excluded.) -/
def randomSelectorKind (hostsLen : Nat) : SelectorKind :=
  if hostsLen = 1 then .singleNode else .randomNoProbe

/-- `RqliteExplicitLeaderDiscoveryNodeSelector` (lines 231-257): one host →
the single-node selector; otherwise, per query, strength `none` delegates
to the wrapped random selector with no probe, while `weak`/`strong` produce
the probing wrapper. -/
def leaderDiscoveryKind (hostsLen : Nat) (strength : ReadConsistency) :
    SelectorKind :=
  if hostsLen = 1 then .singleNode
  else if strength = .levelNone then .randomNoProbe
  else .leaderProbing

/-- `RqliteDefaultNodeSelector.createNodeSelectorForQuery` (lines 592-616):
paths starting with `/db/backup` go to the leader-discovery selector,
everything else to the random selector. -/
def defaultSelectorKind (hostsLen : Nat) (strength : ReadConsistency)
    (path : String) : SelectorKind :=
  if strStartsWith path "/db/backup" then leaderDiscoveryKind hostsLen strength
  else randomSelectorKind hostsLen

/-- Backup formats (`'sql' | 'binary'`). -/
inductive BackupFormat where
  | sql
  | binary
deriving DecidableEq, Repr

/-- `connection.backup` (RqliteConnection.ts lines 478-517): the selector
hints and path of its single `fetchResponse` call —
`readConsistencyHint = consistency ?? 'weak'`,
`freshnessHint = freshness ?? options.freshness`,
`path = '/db/backup' + (format === 'sql' ? '?fmt=sql' : '')`, method `GET`.
Returned as (strength hint, path, freshness hint). -/
def backupRequest (format : BackupFormat)
    (consistency : Option ReadConsistency) (freshness : Option String)
    (connFreshness : String) : ReadConsistency × String × String :=
  (consistency.getD .weak,
   "/db/backup" ++ (if format = .sql then "?fmt=sql" else ""),
   freshness.getD connFreshness)

/-- `connection.backupToFile` (lines 541-614): delegates to
`this.backup(format, consumer, signal, 'none', undefined)` — the
consistency hint is the literal `'none'` and the freshness is left
undefined. -/
def backupToFileRequest (format : BackupFormat) (connFreshness : String) :
    ReadConsistency × String × String :=
  backupRequest format (some .levelNone) none connFreshness

/-- C9 counterexample: on a 3-host cluster, a `backupToFile` backup carries
the consistency hint `none`, and the leader-discovery selector that the
default selector routes it to therefore delegates straight to the plain
random selector — no node is probed and no client-side leader location
happens, contrary to the claim. -/
theorem C9_backupToFileNoProbe :
    (backupToFileRequest .binary "5m").1 = .levelNone ∧
    defaultSelectorKind 3 (backupToFileRequest .binary "5m").1
        (backupToFileRequest .binary "5m").2.1 = .randomNoProbe ∧
    SelectorKind.randomNoProbe ≠ SelectorKind.leaderProbing := by
  refine ⟨rfl, rfl, by simp⟩

/-- C9 amended: on clusters of at least two hosts, every backup request
(both formats, hence both `/db/backup` and `/db/backup?fmt=sql`) is routed
by the default selector to the leader-discovery selector, which probes for
the leader exactly when the strength hint is not `none`; `connection.backup`
without an explicit consistency hints `weak` and is probed, while
`backupToFile` hints `none` and is served by the plain random selector
without probing. -/
theorem C9_backupRouting (hostsLen : Nat) (h2 : 2 ≤ hostsLen)
    (format : BackupFormat) (consistency : Option ReadConsistency)
    (freshness : Option String) (connF : String) :
    (defaultSelectorKind hostsLen
        (backupRequest format consistency freshness connF).1
        (backupRequest format consistency freshness connF).2.1 =
      leaderDiscoveryKind hostsLen
        (backupRequest format consistency freshness connF).1) ∧
    (defaultSelectorKind hostsLen
        (backupRequest format consistency freshness connF).1
        (backupRequest format consistency freshness connF).2.1 =
          SelectorKind.leaderProbing ↔
      (backupRequest format consistency freshness connF).1 ≠ .levelNone) ∧
    (defaultSelectorKind hostsLen
        (backupRequest format none freshness connF).1
        (backupRequest format none freshness connF).2.1 =
      SelectorKind.leaderProbing) ∧
    (defaultSelectorKind hostsLen
        (backupToFileRequest format connF).1
        (backupToFileRequest format connF).2.1 =
      SelectorKind.randomNoProbe) := by
  have hne : hostsLen ≠ 1 := by omega
  have hpath : strStartsWith
      ("/db/backup" ++ (if format = .sql then "?fmt=sql" else ""))
      "/db/backup" = true := by
    rcases format <;> decide
  refine ⟨?_, ?_, ?_, ?_⟩
  · simp [backupRequest, defaultSelectorKind, hpath]
  · simp only [backupRequest, defaultSelectorKind, leaderDiscoveryKind,
      hpath, if_true, ite_true, hne, if_false, ite_false]
    rcases consistency with _ | c
    · simp
    · rcases c <;> simp
  · simp [backupRequest, defaultSelectorKind, leaderDiscoveryKind, hpath, hne]
  · simp [backupToFileRequest, backupRequest, defaultSelectorKind,
      leaderDiscoveryKind, hpath, hne]

/-- Witness for `C9_backupRouting` on a 3-host cluster with the default
arguments of `connection.backup`. -/
theorem C9_backupRouting_witness :
    defaultSelectorKind 3 (backupRequest .binary none none "5m").1
        (backupRequest .binary none none "5m").2.1 =
      SelectorKind.leaderProbing ∧
    defaultSelectorKind 3 (backupToFileRequest .binary "5m").1
        (backupToFileRequest .binary "5m").2.1 =
      SelectorKind.randomNoProbe := by
  exact ⟨(C9_backupRouting 3 (by decide) .binary none none "5m").2.2.1,
         (C9_backupRouting 3 (by decide) .binary none none "5m").2.2.2⟩

/-- C10: confirmed.  When `parameters` is provided and its length differs
from `operations.length`, `executeMany2` throws before its `fetchResponse`
call — the only place a per-query node selector is created and the only
network effect — so the request trace is empty: nothing reaches the cluster
and no observable state changes. -/
theorem C10_lengthMismatchNoFetch (operations : List String)
    (ps : List (List Param)) (raiseOnErrorOpt transactionOpt : Option Bool)
    (connF : String) (responses : List RawResponse)
    (h : operations.length ≠ ps.length) :
    executeMany2Model operations (some ps) raiseOnErrorOpt transactionOpt
        connF responses = ([], .error .lengthMismatch) := by
  simp [executeMany2Model, h]

/-- Witness for `C10_lengthMismatchNoFetch`: two operations, one parameter
vector. -/
theorem C10_lengthMismatchNoFetch_witness :
    executeMany2Model
        ["INSERT INTO t VALUES (?)", "INSERT INTO u VALUES (?)"]
        (some [[Param.num 1]]) none none "5m"
        [{ error := none, results := some [] }] =
      ([], .error .lengthMismatch) := by
  exact C10_lengthMismatchNoFetch _ _ _ _ _ _ (by decide)

/-- C4: confirmed.  A read (`SELECT`/`EXPLAIN`) whose resolved consistency
is `none` that receives a top-level `stale read` error is retried exactly
once, with the per-call consistency replaced by `weak` and an otherwise
identical request (same method, same `[[op, ...params]]` body, same
freshness); when the retry also reports `stale read`, the call fails with
that server error and no third request is issued, whatever further
responses would say. -/
theorem C4_staleReadRetriedOnce (operation : String) (params : List Param)
    (raiseOnError : Bool) (callRC cursorRC : Option ReadConsistency)
    (connRC : ReadConsistency) (callF cursorF : Option String)
    (connF : String) (command : String)
    (r1 r2 : Option (List RawResultItem)) (rest : List RawResponse)
    (hcmd : getSqlCommandModel operation = .ok command)
    (hread : command = "SELECT" ∨ command = "EXPLAIN")
    (hrc : resolveReadConsistency callRC cursorRC connRC = .levelNone) :
    executeModel operation params raiseOnError callRC cursorRC connRC callF
        cursorF connF
        ({ error := some "stale read", results := r1 } ::
          { error := some "stale read", results := r2 } :: rest) =
      ([{ method := "POST"
          path := "/db/query?level=none&freshness=" ++
            resolveFreshness callF cursorF connF
          strength := .levelNone
          freshness := resolveFreshness callF cursorF connF
          body := [(operation, params)] },
        { method := "POST"
          path := "/db/query?level=weak&redirect"
          strength := .weak
          freshness := resolveFreshness callF cursorF connF
          body := [(operation, params)] }],
        .error (.serverErr "stale read")) := by
  have hisRead : (command == "SELECT" || command == "EXPLAIN") = true := by
    rcases hread with rfl | rfl <;> decide
  have hp1 : "/db/query?level=" ++ "none" ++
      ("&freshness=" ++ resolveFreshness callF cursorF connF) =
      "/db/query?level=none&freshness=" ++
        resolveFreshness callF cursorF connF := by
    rw [← String.append_assoc]
    rfl
  have hbeq : (ReadConsistency.weak == ReadConsistency.levelNone) = false := rfl
  rw [executeModel]
  rw [hcmd]
  simp only [hisRead, hrc]
  simp only [beq_self_eq_true, Bool.and_self, Bool.true_and, Bool.and_true,
    if_true, ite_true, ne_eq, not_true_eq_false, if_false, ite_false,
    ReadConsistency.toWire, String.append_empty]
  rw [executeModel]
  rw [hcmd]
  simp only [hisRead, resolveReadConsistency, Option.getD, hbeq,
    Bool.and_false, Bool.true_and, Bool.and_true, if_false, ite_false,
    Bool.false_eq_true, ReadConsistency.toWire, String.append_empty,
    beq_self_eq_true, ne_eq, not_true_eq_false, if_true, ite_true, hp1]
  have hne2 : ¬ (ReadConsistency.weak = ReadConsistency.levelNone) := by
    simp
  simp only [buildExecuteRequest, if_true, ite_true, ReadConsistency.toWire,
    ne_eq, not_true_eq_false, if_false, ite_false, String.append_empty, hp1]
  rw [if_neg hne2, if_pos hne2]
  rw [String.append_empty]
  rfl

/-- Witness for `C4_staleReadRetriedOnce`: `SELECT 1` at per-call consistency
`none`, two `stale read` responses. -/
theorem C4_staleReadRetriedOnce_witness :
    executeModel "SELECT 1" [] true (some .levelNone) none .weak none none
        "5m"
        ({ error := some "stale read", results := none } ::
          { error := some "stale read", results := none } :: []) =
      ([{ method := "POST"
          path := "/db/query?level=none&freshness=5m"
          strength := .levelNone
          freshness := "5m"
          body := [("SELECT 1", [])] },
        { method := "POST"
          path := "/db/query?level=weak&redirect"
          strength := .weak
          freshness := "5m"
          body := [("SELECT 1", [])] }],
        .error (.serverErr "stale read")) := by
  have h := C4_staleReadRetriedOnce "SELECT 1" [] true (some .levelNone) none
    .weak none none "5m" "SELECT" none none [] rfl (Or.inl rfl) rfl
  exact h.trans rfl

/-- Whether `needle` occurs as a contiguous substring of the second list. -/
def hasNeedle (needle : List Char) : List Char → Bool
  | [] => leadsWith needle []
  | d :: ds => leadsWith needle (d :: ds) || hasNeedle needle ds

/-- Whatever the responses, the first `fetchResponse` call of `execute` is
the one built by `buildExecuteRequest` at the resolved consistency and
freshness. -/
theorem executeModel_firstRequest (operation command : String)
    (params : List Param) (raiseOnError : Bool)
    (callRC cursorRC : Option ReadConsistency) (connRC : ReadConsistency)
    (callF cursorF : Option String) (connF : String)
    (responses : List RawResponse)
    (hcmd : getSqlCommandModel operation = .ok command) :
    (executeModel operation params raiseOnError callRC cursorRC connRC
        callF cursorF connF responses).1.head? =
      some (buildExecuteRequest operation params
        (command == "SELECT" || command == "EXPLAIN")
        (resolveReadConsistency callRC cursorRC connRC)
        (resolveFreshness callF cursorF connF)) := by
  rw [executeModel]
  rw [hcmd]
  rcases responses with _ | ⟨⟨e, r⟩, rest⟩
  · rfl
  · rcases e with _ | e
    · rcases r with _ | items
      · rfl
      · dsimp only
        by_cases hlen : items.length ≠ 1
        · rw [if_pos hlen]
          rfl
        · rw [if_neg hlen]
          by_cases hso : raiseOnError = true ∧ (items.getD 0 default).error ≠ none
          · rw [if_pos hso]
            rfl
          · rw [if_neg hso]
            rfl
    · dsimp only
      by_cases hcond : ((command == "SELECT" || command == "EXPLAIN") &&
          e == "stale read" &&
          (resolveReadConsistency callRC cursorRC connRC ==
            ReadConsistency.levelNone)) = true
      · rw [if_pos hcond]
        rfl
      · rw [if_neg hcond]
        rfl

/-- C6: confirmed.  The first request `execute` issues is
`buildExecuteRequest` at the consistency resolved as
per-call `??` per-cursor `??` per-connection; for a command other than
`SELECT`/`EXPLAIN` it is `POST /db/execute?redirect` with strength forced to
`strong`; for `SELECT`/`EXPLAIN` it is a `POST` to `/db/query?level=<lvl>`
carrying the resolved consistency as strength, whose URL contains
`&freshness=<f>` exactly when the resolved consistency is `none`. -/
theorem C6_endpointAndConsistency (operation command : String)
    (params : List Param) (raiseOnError : Bool)
    (callRC cursorRC : Option ReadConsistency) (connRC : ReadConsistency)
    (callF cursorF : Option String) (connF : String)
    (responses : List RawResponse)
    (hcmd : getSqlCommandModel operation = .ok command) :
    ((executeModel operation params raiseOnError callRC cursorRC connRC
        callF cursorF connF responses).1.head? =
      some (buildExecuteRequest operation params
        (command == "SELECT" || command == "EXPLAIN")
        (resolveReadConsistency callRC cursorRC connRC)
        (resolveFreshness callF cursorF connF))) ∧
    (¬ (command = "SELECT" ∨ command = "EXPLAIN") →
      buildExecuteRequest operation params
          (command == "SELECT" || command == "EXPLAIN")
          (resolveReadConsistency callRC cursorRC connRC)
          (resolveFreshness callF cursorF connF) =
        { method := "POST"
          path := "/db/execute?redirect"
          strength := .strong
          freshness := resolveFreshness callF cursorF connF
          body := [(operation, params)] }) ∧
    ((command = "SELECT" ∨ command = "EXPLAIN") →
      (buildExecuteRequest operation params
          (command == "SELECT" || command == "EXPLAIN")
          (resolveReadConsistency callRC cursorRC connRC)
          (resolveFreshness callF cursorF connF)).method = "POST" ∧
      (buildExecuteRequest operation params
          (command == "SELECT" || command == "EXPLAIN")
          (resolveReadConsistency callRC cursorRC connRC)
          (resolveFreshness callF cursorF connF)).strength =
        resolveReadConsistency callRC cursorRC connRC ∧
      (buildExecuteRequest operation params
          (command == "SELECT" || command == "EXPLAIN")
          (resolveReadConsistency callRC cursorRC connRC)
          (resolveFreshness callF cursorF connF)).body =
        [(operation, params)] ∧
      (resolveReadConsistency callRC cursorRC connRC = .levelNone →
        (buildExecuteRequest operation params
            (command == "SELECT" || command == "EXPLAIN")
            (resolveReadConsistency callRC cursorRC connRC)
            (resolveFreshness callF cursorF connF)).path =
          "/db/query?level=none&freshness=" ++
            resolveFreshness callF cursorF connF) ∧
      (resolveReadConsistency callRC cursorRC connRC ≠ .levelNone →
        (buildExecuteRequest operation params
            (command == "SELECT" || command == "EXPLAIN")
            (resolveReadConsistency callRC cursorRC connRC)
            (resolveFreshness callF cursorF connF)).path =
          "/db/query?level=" ++
            (resolveReadConsistency callRC cursorRC connRC).toWire ++
            "&redirect" ∧
        hasNeedle "&freshness=".toList
          ((buildExecuteRequest operation params
              (command == "SELECT" || command == "EXPLAIN")
              (resolveReadConsistency callRC cursorRC connRC)
              (resolveFreshness callF cursorF connF)).path).toList =
          false)) := by
  refine ⟨executeModel_firstRequest operation command params raiseOnError
    callRC cursorRC connRC callF cursorF connF responses hcmd, ?_, ?_⟩
  · intro hw
    push_neg at hw
    have hb : (command == "SELECT" || command == "EXPLAIN") = false := by
      simp [hw.1, hw.2]
    rw [hb]
    simp [buildExecuteRequest]
  · intro hread
    have hb : (command == "SELECT" || command == "EXPLAIN") = true := by
      rcases hread with rfl | rfl <;> decide
    rw [hb]
    rcases hrc : resolveReadConsistency callRC cursorRC connRC with _ | _ | _
    · refine ⟨rfl, rfl, rfl, fun _ => ?_, fun hc => absurd rfl hc⟩
      show "/db/query?level=" ++ "none" ++
          ("&freshness=" ++ resolveFreshness callF cursorF connF) ++ "" =
        "/db/query?level=none&freshness=" ++
          resolveFreshness callF cursorF connF
      rw [String.append_empty, ← String.append_assoc]
      rfl
    · refine ⟨rfl, rfl, rfl, fun hc => absurd hc (by simp), fun _ => ?_⟩
      have hp : (buildExecuteRequest operation params true .weak
          (resolveFreshness callF cursorF connF)).path =
          "/db/query?level=weak&redirect" := rfl
      exact ⟨hp, by rw [hp]; decide⟩
    · refine ⟨rfl, rfl, rfl, fun hc => absurd hc (by simp), fun _ => ?_⟩
      have hp : (buildExecuteRequest operation params true .strong
          (resolveFreshness callF cursorF connF)).path =
          "/db/query?level=strong&redirect" := rfl
      exact ⟨hp, by rw [hp]; decide⟩

/-- Witness for `C6_endpointAndConsistency`: a write (`DELETE`) is forced to
`POST /db/execute?redirect` at `strong` even though the cursor asked for
`weak`; a `SELECT` at per-call `none` goes to
`/db/query?level=none&freshness=5m`. -/
theorem C6_endpointAndConsistency_witness :
    (executeModel "DELETE FROM t" [] true none none .weak none none "5m"
        []).1.head? =
      some { method := "POST"
             path := "/db/execute?redirect"
             strength := .strong
             freshness := "5m"
             body := [("DELETE FROM t", [])] } ∧
    (executeModel "SELECT 1" [] true (some .levelNone) none .weak none none
        "5m" []).1.head? =
      some { method := "POST"
             path := "/db/query?level=none&freshness=5m"
             strength := .levelNone
             freshness := "5m"
             body := [("SELECT 1", [])] } := by
  constructor
  · have h := C6_endpointAndConsistency "DELETE FROM t" "DELETE" [] true none
      none .weak none none "5m" [] rfl
    rw [h.1, h.2.1 (by simp)]
    rfl
  · have h := C6_endpointAndConsistency "SELECT 1" "SELECT" [] true
      (some .levelNone) none .weak none none "5m" [] rfl
    rw [h.1]
    rfl
